import Mathlib

/-!
Shallow embedding of the surgical-department analytics app (src/app.py).

A pandas `DataFrame` is modelled positionally: a list of column names and a
list of rows, each row a list of cells aligned with the column list.  A cell
is either a string or a rational number (floats/ints are modelled as `ℚ`).
Fallible pandas operations (column selection raising `KeyError`, arithmetic
on non-numeric columns raising `TypeError`) return `Except String _`.
-/

namespace App

inductive Cell where
  | str (s : String)
  | num (q : ℚ)
deriving DecidableEq

structure DataFrame where
  cols : List String
  rows : List (List Cell)
deriving DecidableEq

/-- Index of the first column with the given name, as pandas label lookup
(the app never builds frames with duplicate labels). -/
def colIdx (cols : List String) (name : String) : Option Nat :=
  match cols with
  | [] => none
  | c :: cs => if c = name then some 0 else (colIdx cs name).map (· + 1)

/-- Cell of row `r` in the named column (default cell for out-of-range
access, which well-formed frames never hit). -/
def colCell (cols : List String) (name : String) (r : List Cell) : Cell :=
  ((colIdx cols name).bind (fun j => r[j]?)).getD (Cell.num 0)

/-- The cell displayed at row `i` of the named column of a frame. -/
def lookupCol (df : DataFrame) (name : String) (i : Nat) : Option Cell :=
  (colIdx df.cols name).bind (fun j => df.rows[i]?.bind (fun r => r[j]?))

/-- Rectangularity: every row has one cell per column. -/
def WF (df : DataFrame) : Prop :=
  ∀ r ∈ df.rows, r.length = df.cols.length

/-! ### Column Normalizer (app.py `clean_columns`, lines 58-60)

`df.columns.str.replace(r"\s+", " ", regex=True).str.strip()`:
first every maximal run of whitespace is replaced by a single space,
then leading/trailing whitespace is stripped. -/

/-- Python regex `\s` / `str.strip` whitespace class (ASCII part; the app's
headers are ASCII). -/
def isWs (c : Char) : Bool :=
  c == ' ' || c == '\t' || c == '\n' || c == '\r' || c == '\x0b' || c == '\x0c'

/-- Replace each maximal whitespace run by one space; the flag records
whether the previous character belonged to a run already emitted. -/
def collapseWs : Bool → List Char → List Char
  | _, [] => []
  | prev, c :: cs =>
    if isWs c then
      if prev then collapseWs true cs else ' ' :: collapseWs true cs
    else c :: collapseWs false cs

/-- Drop trailing whitespace. -/
def dropTrail (l : List Char) : List Char :=
  (l.reverse.dropWhile isWs).reverse

/-- Python `str.strip`: drop leading then trailing whitespace. -/
def stripWs (l : List Char) : List Char :=
  dropTrail (l.dropWhile isWs)

/-- Normalization of one header string, as `clean_columns` does per column. -/
def normalizeHeader (s : String) : String :=
  ⟨stripWs (collapseWs false s.data)⟩

def clean_columns (df : DataFrame) : DataFrame :=
  ⟨df.cols.map normalizeHeader, df.rows⟩

/-! ### Aggregator (app.py `safe_sum`, lines 62-63) -/

def cellQ : Cell → Option ℚ
  | .num q => some q
  | .str _ => none

/-- All cells of the named column. -/
def colCellList (df : DataFrame) (name : String) : List Cell :=
  df.rows.map (colCell df.cols name)

/-- Column sum `df[col].sum()`: the app only sums numeric measure columns; a
non-numeric cell raises (`TypeError`), modelled as an error. -/
def colSum (df : DataFrame) (name : String) : Except String ℚ :=
  match (colCellList df name).mapM cellQ with
  | some qs => .ok qs.sum
  | none => .error "TypeError: non-numeric column"

/-- Safe sum: `df[col].sum() if col in df.columns else 0`. -/
def safe_sum (df : DataFrame) (col : String) : Except String ℚ :=
  if df.cols.contains col then colSum df col else .ok 0

/-! ### Role Classifier (app.py `classify_degree`, lines 65-70) -/

/-- Python values reaching `classify_degree`: the cell content, or a
missing value (`None` / float NaN), coerced by `str(x)`. -/
inductive PyVal where
  | pstr (s : String)
  | pnum (q : ℚ)
  | pnone
  | pnan
deriving DecidableEq

/-- Coercion `str(x)`.  Numeric reprs differ in detail from Python's, but no numeric
repr (digits, sign, separator) contains any classifier pattern. -/
def pyStr : PyVal → String
  | .pstr s => s
  | .pnum q => toString q
  | .pnone => "None"
  | .pnan => "nan"

/-- Python `pat in s` substring containment. -/
def containsSub (s pat : String) : Bool :=
  s.data.tails.any (fun t => pat.data.isPrefixOf t)

/-- ASCII lower-casing of one character (`str.lower`; the classifier
patterns are ASCII). -/
def lowerChar (c : Char) : Char :=
  if 'A' ≤ c ∧ c ≤ 'Z' then Char.ofNat (c.toNat + 32) else c

/-- Python `str.lower`. -/
def strLower (s : String) : String :=
  ⟨s.data.map lowerChar⟩

def classify_degree (x : PyVal) : String :=
  let s := strLower (pyStr x)
  if containsSub s "consult" then "Consultant"
  else if containsSub s "special" then "Specialist"
  else if containsSub s "resident" then "Resident"
  else "Other"

/-! ### Ingestion (app.py lines 170-184) -/

/-- Lines 171-176: read, normalize headers, and stop with a user-facing
error unless a column named exactly `department` is present. -/
def ingest (df : DataFrame) : Except String DataFrame :=
  let d := clean_columns df
  if d.cols.contains "department" then .ok d
  else .error "CSV must contain department column"

/-- Line 183: `df[df["department"] == department].copy()`. -/
def deptSlice (df : DataFrame) (department : String) : DataFrame :=
  ⟨df.cols, df.rows.filter (fun r => colCell df.cols "department" r == Cell.str department)⟩

def cellPy : Cell → PyVal
  | .str s => .pstr s
  | .num q => .pnum q

/-- Pandas column assignment `df[name] = ...`: overwrite the column when the
label exists, otherwise append it. -/
def setColumn (df : DataFrame) (name : String) (g : List Cell → Cell) : DataFrame :=
  match colIdx df.cols name with
  | some j => ⟨df.cols, df.rows.map (fun r => r.set j (g r))⟩
  | none => ⟨df.cols ++ [name], df.rows.map (fun r => r ++ [g r])⟩

/-- Line 184: `dept_df["Degree Group"] = dept_df["degree"].apply(classify_degree)
if "degree" in dept_df.columns else "Other"` (scalar broadcast). -/
def assignDegreeGroup (df : DataFrame) : DataFrame :=
  if df.cols.contains "degree" then
    setColumn df "Degree Group" (fun r => Cell.str (classify_degree (cellPy (colCell df.cols "degree" r))))
  else
    setColumn df "Degree Group" (fun _ => Cell.str "Other")

/-! ### Table Projector (app.py lines 209-233 and 330-353) -/

/-- Column selection `df[[n1, ..., nk]]`: raises `KeyError` when a requested
label is absent. -/
def selectCols (df : DataFrame) (names : List String) : Except String DataFrame :=
  if names.all (fun n => df.cols.contains n) then
    .ok ⟨names, df.rows.map (fun r => names.map (fun n => colCell df.cols n r))⟩
  else .error "KeyError"

/-- Relabeling `t.columns = [...]`. -/
def renameCols (df : DataFrame) (names : List String) : DataFrame :=
  ⟨names, df.rows⟩

/-- Line 210: `dept_df[dept_df["Degree Group"] == degree]`. -/
def filterDegree (df : DataFrame) (d : String) : DataFrame :=
  ⟨df.cols, df.rows.filter (fun r => colCell df.cols "Degree Group" r == Cell.str d)⟩

/-- Lines 219-230: the roster table for one degree group. -/
def rosterTable (deg_df : DataFrame) : Except String DataFrame :=
  if deg_df.cols.contains "Contract type" then
    (selectCols deg_df ["staff name", "Contract type"]).map
      (fun t => renameCols t ["Staff Name", "Contract Type"])
  else
    (selectCols deg_df ["staff name"]).map
      (fun t => renameCols t ["Staff Name"])

/-- Lines 209-233: one roster table per non-empty degree group, in loop
order; the loop never visits `Other`. -/
def buildTables (df : DataFrame) : List String → Except String (List (String × DataFrame))
  | [] => .ok []
  | d :: ds =>
    let deg_df := filterDegree df d
    if deg_df.rows.isEmpty then buildTables df ds
    else
      match rosterTable deg_df with
      | .error e => .error e
      | .ok t =>
        match buildTables df ds with
        | .error e => .error e
        | .ok rest => .ok ((d, t) :: rest)

def detailed_tables (df : DataFrame) : Except String (List (String × DataFrame)) :=
  buildTables df ["Consultant", "Specialist", "Resident"]

/-- numpy/pandas `.round` ties-to-even rounding to an integer. -/
def roundHalfEven (q : ℚ) : ℤ :=
  let n : ℤ := ⌊q⌋
  let f : ℚ := q - n
  if f < 1/2 then n
  else if 1/2 < f then n + 1
  else if n % 2 = 0 then n else n + 1

/-- Rounding to 2 decimal places, `.round(2)`. -/
def round2 (q : ℚ) : ℚ :=
  (roundHalfEven (q * 100) : ℚ) / 100

/-- Derived column `df[new] = f(df[src])`: raises unless `src` exists and is numeric
throughout; overwrites/appends per pandas assignment. -/
def addNumDerived (df : DataFrame) (src new : String) (f : ℚ → ℚ) : Except String DataFrame :=
  if df.cols.contains src && (colCellList df src).all (fun c => (cellQ c).isSome) then
    .ok (setColumn df new (fun r => Cell.num (f ((cellQ (colCell df.cols src r)).getD 0))))
  else .error "TypeError"

/-- Lines 330-333. -/
def perf_table (df : DataFrame) : Except String DataFrame :=
  match selectCols df ["staff name", "degree", "total hours", "opened clinic", "Total visits", "Operation total number"] with
  | .error e => .error e
  | .ok base0 =>
    let base := renameCols base0 ["Staff Name", "Degree", "Total Hours", "Opened Clinics", "Total Visits", "Total Operations"]
    match addNumDerived base "Opened Clinics" "Avg. Clinics" (fun q => round2 (q / 10)) with
    | .error e => .error e
    | .ok t1 => addNumDerived t1 "Total Operations" "Avg. Operations" (fun q => round2 (q / 10))

/-- Lines 338-339. -/
def op_source_table (df : DataFrame) : Except String DataFrame :=
  (selectCols df ["staff name", "degree", "opr_elective", "opr_emergency", "Operation total number"]).map
    (fun t => renameCols t ["Staff Name", "Degree", "Elective", "Emergency", "Total Operations"])

/-- Lines 341-342. -/
def op_value_table (df : DataFrame) : Except String DataFrame :=
  (selectCols df ["staff name", "degree", "opr_high", "opr_moderate", "opr_low", "Operation total number"]).map
    (fun t => renameCols t ["Staff Name", "Degree", "High", "Moderate", "Low", "Total Operations"])

/-- Lines 352-353. -/
def fin_table (df : DataFrame) : Except String DataFrame :=
  (selectCols df ["staff name", "degree", "total slary", "total income", "Net"]).map
    (fun t => renameCols t ["Staff Name", "Degree", "Total Salary", "Total Income", "Net Income"])

/-- Lines 246-247 and 258: the Operation Source pie values
`[elective, emergency]`. -/
def opSourceChartValues (df : DataFrame) : Except String (List ℚ) :=
  match safe_sum df "opr_elective" with
  | .error e => .error e
  | .ok e =>
    match safe_sum df "opr_emergency" with
    | .error e2 => .error e2
    | .ok m => .ok [e, m]

/-! ### Report Composer (app.py `generate_pdf`, lines 72-158) -/

inductive Element where
  | para (text : String)
  | spacer
  | pdfTable (data : List (List Cell))
  | pageBreak
deriving DecidableEq

/-- `[table_df.columns.tolist()] + table_df.values.tolist()`. -/
def tableData (t : DataFrame) : List (List Cell) :=
  (t.cols.map Cell.str) :: t.rows

/-- reportlab `Table(data)`: raises on empty data (the app always passes a
header row, so this never fires). -/
def mkTable (data : List (List Cell)) : Except String Element :=
  if data.isEmpty then .error "Table must have at least one row"
  else .ok (Element.pdfTable data)

/-- Lines 89-90: `(table_df["Contract Type"] == v).sum()` guarded on the
column being present. -/
def countEq (t : DataFrame) (col v : String) : Nat :=
  if t.cols.contains col then
    ((colCellList t col).filter (fun c => c == Cell.str v)).length
  else 0

/-- Line 91 heading text. -/
def degreeHeading (degree : String) (t : DataFrame) : String :=
  degree ++ "s - Total: " ++ toString t.rows.length
    ++ " | Contracted: " ++ toString (countEq t "Contract Type" "Contracted")
    ++ " | General: " ++ toString (countEq t "Contract Type" "General")

/-- The ordered element sequence of the document built by `generate_pdf`. -/
def generate_pdf (dept_df : DataFrame) (department : String)
    (dts : List (String × DataFrame)) (perf opS opV fin : DataFrame) :
    Except String (List Element) := do
  let _ := dept_df
  let breakdown ← dts.mapM (fun p => do
    let tb ← mkTable (tableData p.2)
    pure [Element.para (degreeHeading p.1 p.2), tb, Element.spacer])
  let perfT ← mkTable (tableData perf)
  let opST ← mkTable (tableData opS)
  let opVT ← mkTable (tableData opV)
  let finT ← mkTable (tableData fin)
  pure ([Element.para ("Surgical Department Report - " ++ department), Element.spacer,
      Element.para "Staff Breakdown by Degree"]
    ++ breakdown.flatten
    ++ [Element.pageBreak, Element.para "Overall Performance", perfT,
        Element.pageBreak, Element.para "Operations Overview",
        Element.para "Operation Source", opST, Element.spacer,
        Element.para "Operation Value", opVT, Element.spacer,
        Element.pageBreak, Element.para "Financial Performance", finT])

inductive UIAction where
  | download (doc : List Element) (fname : String)
  | errorMsg (msg : String)
deriving DecidableEq

/-- Lines 359-364: the Generate PDF Report button handler — try/except
around `generate_pdf`, download button only on success. -/
def onGenerateClick (dept_df : DataFrame) (department : String)
    (dts : List (String × DataFrame)) (perf opS opV fin : DataFrame) : UIAction :=
  match generate_pdf dept_df department dts perf opS opV fin with
  | .ok buf => .download buf (department ++ "_report.pdf")
  | .error e => .errorMsg ("PDF generation failed: " ++ e)

/-! ### Unfolded forms of the performance table, used in proofs -/

/-- The six selected source cells of one performance-table row. -/
def perfSel (df : DataFrame) (r : List Cell) : List Cell :=
  ["staff name", "degree", "total hours", "opened clinic", "Total visits",
   "Operation total number"].map (fun n => colCell df.cols n r)

/-- One fully derived performance-table row. -/
def perfRowFull (df : DataFrame) (r : List Cell) : List Cell :=
  (perfSel df r
      ++ [Cell.num (round2 (((cellQ (colCell df.cols "opened clinic" r)).getD 0) / 10))])
    ++ [Cell.num (round2 (((cellQ (colCell df.cols "Operation total number" r)).getD 0) / 10))]

/-- The performance-table column labels after renaming and derivation. -/
def perfColsFull : List String :=
  ["Staff Name", "Degree", "Total Hours", "Opened Clinics", "Total Visits",
   "Total Operations", "Avg. Clinics", "Avg. Operations"]

/-! ### Predicates used by the normalizer proofs -/

/-- Every whitespace character is a plain space. -/
abbrev SpacedWs (l : List Char) : Prop :=
  ∀ c ∈ l, isWs c = true → c = ' '

/-- No two adjacent whitespace characters. -/
abbrev NoDoubleWs (l : List Char) : Prop :=
  l.Chain' (fun a b => ¬(isWs a = true ∧ isWs b = true))

/-- The first character, if any, is not whitespace. -/
abbrev headNotWs : List Char → Prop
  | [] => True
  | c :: _ => isWs c = false

/-! ### Concrete frames used to exercise the pipeline -/

def exRoster : DataFrame :=
  ⟨["department", "staff name", "degree", "total hours", "opened clinic", "Total visits",
    "Operation total number", "opr_elective", "opr_emergency", "opr_high", "opr_moderate",
    "opr_low", "total slary", "total income", "Net", "Contract type"],
   [[.str "Surgery", .str "A", .str "Consultant Surgeon", .num 100, .num 10, .num 30,
     .num 20, .num 12, .num 8, .num 5, .num 10, .num 5, .num 1000, .num 2000, .num 1000,
     .str "Contracted"],
    [.str "Surgery", .str "B", .str "Resident", .num 50, .num 5, .num 12,
     .num 5, .num 3, .num 2, .num 1, .num 2, .num 2, .num 500, .num 800, .num 300,
     .str "General"]]⟩

def exSlice : DataFrame := assignDegreeGroup (deptSlice exRoster "Surgery")

def exPerfT : DataFrame := (perf_table exSlice).toOption.getD ⟨[], []⟩

def exOpST : DataFrame := (op_source_table exSlice).toOption.getD ⟨[], []⟩

def exOpVT : DataFrame := (op_value_table exSlice).toOption.getD ⟨[], []⟩

def exFinT : DataFrame := (fin_table exSlice).toOption.getD ⟨[], []⟩

def exDetailed : List (String × DataFrame) := (detailed_tables exSlice).toOption.getD []

def exDoc : List Element :=
  (generate_pdf exSlice "Surgery" exDetailed exPerfT exOpST exOpVT exFinT).toOption.getD []

/-- A table whose only columns are the department key and one measure:
schema-valid, but lacking the optional `staff name` column. -/
def exMissingStaff : DataFrame := ⟨["department", "total hours"], [[.str "Surgery", .num 7]]⟩

def exMSlice : DataFrame := assignDegreeGroup (deptSlice exMissingStaff "Surgery")

/-- A table with no `degree` column at all. -/
def exNoDegree : DataFrame := ⟨["department", "staff name"], [[.str "Surgery", .str "A"]]⟩

/-- A slice whose only staff row classifies as `Other`. -/
def exOtherOnly : DataFrame :=
  assignDegreeGroup ⟨["department", "staff name", "degree"],
    [[.str "Surgery", .str "N", .str "nurse"]]⟩

/-- A table with no column normalizing to `department`. -/
def exNoDept : DataFrame := ⟨["dept name"], [[.str "x"]]⟩

/-! ## Helper lemmas -/

theorem colIdx_bounds {cols : List String} {name : String} {j : Nat}
    (h : colIdx cols name = some j) : j < cols.length ∧ cols[j]? = some name := by
  induction cols generalizing j with
  | nil => simp [colIdx] at h
  | cons c cs ih =>
    by_cases hc : c = name
    · simp [colIdx, hc] at h
      subst h
      simp [hc]
    · simp only [colIdx, if_neg hc, Option.map_eq_some'] at h
      obtain ⟨j', hj', rfl⟩ := h
      have := ih hj'
      simpa [Nat.succ_lt_succ_iff] using this

theorem colIdx_append_self {cols : List String} {name : String}
    (h : colIdx cols name = none) : colIdx (cols ++ [name]) name = some cols.length := by
  induction cols with
  | nil => simp [colIdx]
  | cons c cs ih =>
    by_cases hc : c = name
    · simp [colIdx, hc] at h
    · simp only [colIdx, if_neg hc, Option.map_eq_none'] at h
      simp [colIdx, if_neg hc, ih h]

/-! ## C5: role classifier -/

/-- Claim C5: `classify_degree` is total and returns one of the four
categories; first-match precedence makes any input whose lowered text
contains "consult" classify as Consultant (so text containing both
"consult" and "special" is a Consultant); non-string input goes through
the `str` coercion `pyStr` first. -/
theorem c5_claim (x : PyVal) :
    (classify_degree x = "Consultant" ∨ classify_degree x = "Specialist" ∨
      classify_degree x = "Resident" ∨ classify_degree x = "Other") ∧
    (containsSub (strLower (pyStr x)) "consult" = true →
      classify_degree x = "Consultant") := by
  constructor
  · by_cases h1 : containsSub (strLower (pyStr x)) "consult" = true
    · exact Or.inl (by simp [classify_degree, h1])
    · by_cases h2 : containsSub (strLower (pyStr x)) "special" = true
      · exact Or.inr (Or.inl (by simp [classify_degree, h1, h2]))
      · by_cases h3 : containsSub (strLower (pyStr x)) "resident" = true
        · exact Or.inr (Or.inr (Or.inl (by simp [classify_degree, h1, h2, h3])))
        · exact Or.inr (Or.inr (Or.inr (by simp [classify_degree, h1, h2, h3])))
  · intro h
    simp [classify_degree, h]

/-- Claim C5 witness: "Special Consultant" contains both patterns and
classifies as Consultant. -/
theorem c5_witness :
    classify_degree (PyVal.pstr "Special Consultant") = "Consultant" ∧
    containsSub (strLower "Special Consultant") "consult" = true ∧
    containsSub (strLower "Special Consultant") "special" = true :=
  ⟨(c5_claim (PyVal.pstr "Special Consultant")).2 (by decide), by decide, by decide⟩

/-! ## C6: safe_sum on absent columns -/

/-- Claim C6: for every frame and target column, `safe_sum` returns 0 (and
does not raise) when the column is absent, and a frame with neither
`opr_elective` nor `opr_emergency` yields Operation Source chart values
`[0, 0]`. -/
theorem c6_claim (df : DataFrame) (col : String) :
    (col ∉ df.cols → safe_sum df col = .ok 0) ∧
    ("opr_elective" ∉ df.cols → "opr_emergency" ∉ df.cols →
      opSourceChartValues df = .ok [0, 0]) := by
  constructor
  · intro h
    simp [safe_sum, h]
  · intro h1 h2
    simp [opSourceChartValues, safe_sum, h1, h2]

/-- Claim C6 witness: a concrete frame lacking the operation-source
columns. -/
theorem c6_witness :
    safe_sum exMissingStaff "opr_elective" = .ok 0 ∧
    opSourceChartValues exMissingStaff = .ok [0, 0] :=
  ⟨(c6_claim exMissingStaff "opr_elective").1 (by decide),
   (c6_claim exMissingStaff "opr_elective").2 (by decide) (by decide)⟩

/-! ## C8: all-or-nothing report generation -/

/-- Claim C8: the generate-report handler offers a download only when the
composer returned a complete document, and converts any composer error
into a user-facing message (no partial file). -/
theorem c8_claim (dept_df : DataFrame) (department : String)
    (dts : List (String × DataFrame)) (perf opS opV fin : DataFrame) :
    (∀ d f, onGenerateClick dept_df department dts perf opS opV fin =
        .download d f →
      generate_pdf dept_df department dts perf opS opV fin = .ok d) ∧
    (∀ e, generate_pdf dept_df department dts perf opS opV fin = .error e →
      onGenerateClick dept_df department dts perf opS opV fin =
        .errorMsg ("PDF generation failed: " ++ e)) := by
  constructor
  · intro d f hd
    unfold onGenerateClick at hd
    cases h : generate_pdf dept_df department dts perf opS opV fin with
    | ok buf =>
      rw [h] at hd
      cases hd
      rfl
    | error er =>
      rw [h] at hd
      cases hd
  · intro e he
    unfold onGenerateClick
    rw [he]

/-- Claim C8 witness: on the example slice the handler offers exactly the
successfully composed document. -/
theorem c8_witness :
    onGenerateClick exSlice "Surgery" exDetailed exPerfT exOpST exOpVT exFinT =
      .download exDoc "Surgery_report.pdf" ∧
    generate_pdf exSlice "Surgery" exDetailed exPerfT exOpST exOpVT exFinT =
      .ok exDoc :=
  ⟨by with_unfolding_all rfl,
   (c8_claim exSlice "Surgery" exDetailed exPerfT exOpST exOpVT exFinT).1 exDoc
     "Surgery_report.pdf" (by with_unfolding_all rfl)⟩

/-! ## C1: schema error iff department column missing (amended) -/

/-- Claim C1 (amended): ingestion fails with the user-facing schema error
exactly when no normalized column equals `department` (case-sensitive);
when it is present the metric aggregations (`safe_sum`) degrade to 0 on
absent optional columns, but the projected tables do require their source
columns — e.g. `perf_table` raises `KeyError` when `staff name` is
absent. -/
theorem c1_claim (df : DataFrame) :
    ((∃ e, ingest df = .error e) ↔ "department" ∉ (clean_columns df).cols) ∧
    (∀ c, c ∉ df.cols → safe_sum df c = .ok 0) ∧
    ("staff name" ∉ df.cols → perf_table df = .error "KeyError") := by
  refine ⟨?_, ?_, ?_⟩
  · by_cases h : "department" ∈ (clean_columns df).cols <;> simp [ingest, h]
  · intro c hc
    simp [safe_sum, hc]
  · intro h
    unfold perf_table selectCols
    simp [h]

/-- Claim C1 counterexample: a schema-valid upload (department present)
whose recognized optional column `staff name` is absent passes ingestion
but makes the performance-table projection fail, so optional-column
absence does break part of the pipeline. -/
theorem c1_counterexample :
    ingest exMissingStaff = .ok exMissingStaff ∧
    perf_table exMSlice = .error "KeyError" :=
  ⟨by with_unfolding_all rfl, by with_unfolding_all rfl⟩

/-- Claim C1 witness: the amended claim at concrete inputs. -/
theorem c1_witness :
    (∃ e, ingest exNoDept = .error e) ∧
    safe_sum exNoDegree "opr_elective" = .ok 0 ∧
    perf_table exMissingStaff = .error "KeyError" :=
  ⟨(c1_claim exNoDept).1.mpr (by decide),
   (c1_claim exNoDegree).2.1 "opr_elective" (by decide),
   (c1_claim exMissingStaff).2.2 (by decide)⟩

/-! ## C10: no degree column means all rows are Other and no roster tables -/

/-- Claim C10: when the uploaded table has no `degree` column, every row of
the slice gets Degree Group `Other`, and the staff breakdown builds no
roster table at all (the loop only visits Consultant, Specialist,
Resident). -/
theorem c10_claim (df : DataFrame) (hdeg : "degree" ∉ df.cols) (hwf : WF df) :
    (∀ r ∈ (assignDegreeGroup df).rows,
      colCell (assignDegreeGroup df).cols "Degree Group" r = Cell.str "Other") ∧
    detailed_tables (assignDegreeGroup df) = .ok [] := by
  have hset : assignDegreeGroup df = setColumn df "Degree Group" (fun _ => Cell.str "Other") := by
    simp [assignDegreeGroup, hdeg]
  have hall : ∀ r ∈ (assignDegreeGroup df).rows,
      colCell (assignDegreeGroup df).cols "Degree Group" r = Cell.str "Other" := by
    rw [hset]
    cases hj : colIdx df.cols "Degree Group" with
    | some j =>
      intro r hr
      simp only [setColumn, hj] at hr ⊢
      obtain ⟨r0, hr0, rfl⟩ := List.mem_map.mp hr
      have hb := colIdx_bounds hj
      have hlen := hwf r0 hr0
      have hlt : j < r0.length := by rw [hlen]; exact hb.1
      simp [colCell, hj, List.getElem?_set_eq_of_lt _ hlt]
    | none =>
      intro r hr
      simp only [setColumn, hj] at hr ⊢
      obtain ⟨r0, hr0, rfl⟩ := List.mem_map.mp hr
      have hlen := hwf r0 hr0
      have hidx := colIdx_append_self hj
      simp [colCell, hidx, ← hlen, List.getElem?_concat_length]
  refine ⟨hall, ?_⟩
  have hf : ∀ d, "Other" ≠ d → (filterDegree (assignDegreeGroup df) d).rows = [] := by
    intro d hd
    apply List.filter_eq_nil_iff.mpr
    intro r hr
    rw [hall r hr]
    simp [hd]
  have e1 := hf "Consultant" (by decide)
  have e2 := hf "Specialist" (by decide)
  have e3 := hf "Resident" (by decide)
  simp [detailed_tables, buildTables, e1, e2, e3]

/-- Claim C10 witness: a concrete table with no degree column. -/
theorem c10_witness :
    colCell (assignDegreeGroup exNoDegree).cols "Degree Group"
      [Cell.str "Surgery", Cell.str "A", Cell.str "Other"] = Cell.str "Other" ∧
    detailed_tables (assignDegreeGroup exNoDegree) = .ok [] := by
  have h := c10_claim exNoDegree (by decide) (by unfold WF; decide)
  exact ⟨h.1 _ (by decide), h.2⟩

/-! ## Shape lemmas for the projected tables -/

theorem selectCols_ok {df : DataFrame} {names : List String} {t : DataFrame}
    (h : selectCols df names = .ok t) :
    t = ⟨names, df.rows.map (fun r => names.map (fun n => colCell df.cols n r))⟩ := by
  unfold selectCols at h
  split at h
  · exact (Except.ok.inj h).symm
  · cases h

theorem addNumDerived_ok {df : DataFrame} {src new : String} {f : ℚ → ℚ} {t : DataFrame}
    (h : addNumDerived df src new f = .ok t) :
    t = setColumn df new (fun r => Cell.num (f ((cellQ (colCell df.cols src r)).getD 0))) := by
  unfold addNumDerived at h
  split at h
  · exact (Except.ok.inj h).symm
  · cases h

theorem select_rename_shape {df u : DataFrame} {names new : List String}
    (h : (selectCols df names).map (fun v => renameCols v new) = .ok u) :
    u.cols = new ∧
    u.rows = df.rows.map (fun r => names.map (fun n => colCell df.cols n r)) := by
  cases hs : selectCols df names with
  | error e =>
    rw [hs] at h
    cases h
  | ok v =>
    rw [hs] at h
    have hv := selectCols_ok hs
    subst hv
    cases h
    exact ⟨rfl, rfl⟩

theorem perf_table_shape {df t : DataFrame} (ht : perf_table df = .ok t) :
    t.cols = perfColsFull ∧ t.rows = df.rows.map (perfRowFull df) := by
  unfold perf_table at ht
  cases hs : selectCols df ["staff name", "degree", "total hours", "opened clinic",
      "Total visits", "Operation total number"] with
  | error e =>
    rw [hs] at ht
    cases ht
  | ok base0 =>
    rw [hs] at ht
    have hb := selectCols_ok hs
    subst hb
    dsimp only at ht
    cases h1 : addNumDerived
        (renameCols
          ⟨["staff name", "degree", "total hours", "opened clinic", "Total visits",
            "Operation total number"],
            df.rows.map (fun r =>
              ["staff name", "degree", "total hours", "opened clinic", "Total visits",
                "Operation total number"].map (fun n => colCell df.cols n r))⟩
          ["Staff Name", "Degree", "Total Hours", "Opened Clinics", "Total Visits",
            "Total Operations"])
        "Opened Clinics" "Avg. Clinics" (fun q => round2 (q / 10)) with
    | error e =>
      rw [h1] at ht
      cases ht
    | ok t1 =>
      rw [h1] at ht
      have ht1 := addNumDerived_ok h1
      subst ht1
      have ht2 := addNumDerived_ok ht
      subst ht2
      constructor
      · rfl
      · show ((df.rows.map _).map _).map _ = _
        rw [List.map_map, List.map_map]
        rfl

/-! ## C2: cross-table total-operations consistency -/

/-- Claim C2: for every frame and row index, the Total Operations cell of
the performance table equals the Total Operations cell of the
operation-source table and of the operation-value table, all three being
projected from the same slice. -/
theorem c2_claim (df t1 t2 t3 : DataFrame) (i : Nat)
    (h1 : perf_table df = .ok t1)
    (h2 : op_source_table df = .ok t2)
    (h3 : op_value_table df = .ok t3) :
    lookupCol t1 "Total Operations" i = lookupCol t2 "Total Operations" i ∧
    lookupCol t2 "Total Operations" i = lookupCol t3 "Total Operations" i := by
  have s1 := perf_table_shape h1
  have s2 := select_rename_shape (h := h2)
  have s3 := select_rename_shape (h := h3)
  have e1 : lookupCol t1 "Total Operations" i =
      df.rows[i]?.map (colCell df.cols "Operation total number") := by
    unfold lookupCol
    rw [s1.1, s1.2, List.getElem?_map]
    cases hr : df.rows[i]? <;> rfl
  have e2 : lookupCol t2 "Total Operations" i =
      df.rows[i]?.map (colCell df.cols "Operation total number") := by
    unfold lookupCol
    rw [s2.1, s2.2, List.getElem?_map]
    cases hr : df.rows[i]? <;> rfl
  have e3 : lookupCol t3 "Total Operations" i =
      df.rows[i]?.map (colCell df.cols "Operation total number") := by
    unfold lookupCol
    rw [s3.1, s3.2, List.getElem?_map]
    cases hr : df.rows[i]? <;> rfl
  exact ⟨e1.trans e2.symm, e2.trans e3.symm⟩

/-- Claim C2 witness: the three projected tables of the example slice agree
on row 0. -/
theorem c2_witness :
    lookupCol exPerfT "Total Operations" 0 = lookupCol exOpST "Total Operations" 0 ∧
    lookupCol exOpST "Total Operations" 0 = lookupCol exOpVT "Total Operations" 0 :=
  c2_claim exSlice exPerfT exOpST exOpVT 0 (by with_unfolding_all rfl)
    (by with_unfolding_all rfl) (by with_unfolding_all rfl)

/-! ## C7: fixed-divisor averages -/

/-- Claim C7: in the performance table each Avg. Clinics cell is the row's
Opened Clinics value divided by the constant 10 and rounded to 2 decimal
places, and each Avg. Operations cell is Total Operations divided by 10,
rounded likewise. -/
theorem c7_claim (df t : DataFrame) (i : Nat) (qc qo : ℚ)
    (hp : perf_table df = .ok t)
    (hc : lookupCol t "Opened Clinics" i = some (Cell.num qc))
    (ho : lookupCol t "Total Operations" i = some (Cell.num qo)) :
    lookupCol t "Avg. Clinics" i = some (Cell.num (round2 (qc / 10))) ∧
    lookupCol t "Avg. Operations" i = some (Cell.num (round2 (qo / 10))) := by
  have s := perf_table_shape hp
  have ec : lookupCol t "Opened Clinics" i =
      df.rows[i]?.map (colCell df.cols "opened clinic") := by
    unfold lookupCol
    rw [s.1, s.2, List.getElem?_map]
    cases hr : df.rows[i]? <;> rfl
  have eo : lookupCol t "Total Operations" i =
      df.rows[i]?.map (colCell df.cols "Operation total number") := by
    unfold lookupCol
    rw [s.1, s.2, List.getElem?_map]
    cases hr : df.rows[i]? <;> rfl
  rw [ec] at hc
  rw [eo] at ho
  cases hr : df.rows[i]? with
  | none =>
    rw [hr] at hc
    cases hc
  | some r =>
    rw [hr] at hc ho
    have hc' : colCell df.cols "opened clinic" r = Cell.num qc := Option.some.inj hc
    have ho' : colCell df.cols "Operation total number" r = Cell.num qo := Option.some.inj ho
    constructor
    · have ea : lookupCol t "Avg. Clinics" i =
          some (Cell.num (round2 (((cellQ (colCell df.cols "opened clinic" r)).getD 0) / 10))) := by
        unfold lookupCol
        rw [s.1, s.2, List.getElem?_map, hr]
        rfl
      rw [ea, hc']
      rfl
    · have ea : lookupCol t "Avg. Operations" i =
          some (Cell.num (round2 (((cellQ (colCell df.cols "Operation total number" r)).getD 0) / 10))) := by
        unfold lookupCol
        rw [s.1, s.2, List.getElem?_map, hr]
        rfl
      rw [ea, ho']
      rfl

/-- Claim C7 witness: the example row with 10 clinics and 20 operations
gets Avg. Clinics 1.00 and Avg. Operations 2.00. -/
theorem c7_witness :
    lookupCol exPerfT "Avg. Clinics" 0 = some (Cell.num 1) ∧
    lookupCol exPerfT "Avg. Operations" 0 = some (Cell.num 2) := by
  have h := c7_claim exSlice exPerfT 0 10 20 (by with_unfolding_all rfl)
    (by with_unfolding_all rfl) (by with_unfolding_all rfl)
  constructor
  · rw [h.1]
    with_unfolding_all rfl
  · rw [h.2]
    with_unfolding_all rfl

/-! ## C4: staff-breakdown sections (amended) -/

theorem buildTables_spec {df : DataFrame} {ds : List String}
    {L : List (String × DataFrame)} (h : buildTables df ds = .ok L) :
    L.map Prod.fst = ds.filter (fun d => !(filterDegree df d).rows.isEmpty) ∧
    ∀ p ∈ L, rosterTable (filterDegree df p.1) = .ok p.2 := by
  induction ds generalizing L with
  | nil =>
    cases h
    simp
  | cons d ds ih =>
    unfold buildTables at h
    by_cases hd : (filterDegree df d).rows.isEmpty
    · rw [if_pos hd] at h
      have := ih h
      simp [List.filter_cons, hd]
      exact ⟨this.1, fun a b hab => this.2 (a, b) hab⟩
    · rw [if_neg hd] at h
      cases hr : rosterTable (filterDegree df d) with
      | error e =>
        rw [hr] at h
        cases h
      | ok t =>
        rw [hr] at h
        cases hb : buildTables df ds with
        | error e =>
          rw [hb] at h
          cases h
        | ok rest =>
          rw [hb] at h
          cases h
          have := ih hb
          constructor
          · simp only [List.map_cons, List.filter_cons]
            rw [if_pos (by simp [hd])]
            exact congrArg (d :: ·) this.1
          · intro p hp
            cases hp with
            | head => exact hr
            | tail _ hp' => exact this.2 p hp'

/-- Claim C4 (amended): the staff-breakdown iterates only over Consultant,
Specialist and Resident; among those, exactly the categories with at least
one row get a roster table (in that order) — each produced by
`rosterTable`, which the PDF renders as a counts sub-heading followed by
the table — and a non-empty `Other` category yields no section at all. -/
theorem c4_claim (df : DataFrame) (L : List (String × DataFrame))
    (h : detailed_tables df = .ok L) :
    L.map Prod.fst =
      ["Consultant", "Specialist", "Resident"].filter
        (fun d => !(filterDegree df d).rows.isEmpty) ∧
    (∀ p ∈ L, rosterTable (filterDegree df p.1) = .ok p.2) ∧
    (∀ t, ("Other", t) ∉ L) := by
  have hs := buildTables_spec h
  refine ⟨hs.1, hs.2, ?_⟩
  intro t ht
  have hmem : "Other" ∈ L.map Prod.fst := List.mem_map.mpr ⟨("Other", t), ht, rfl⟩
  rw [hs.1] at hmem
  have := (List.mem_filter.mp hmem).1
  simp at this

/-- Claim C4 counterexample: a slice whose only row classifies as `Other`
has a non-empty Other category yet produces no breakdown section at all,
refuting the claim for the taxonomy that includes Other. -/
theorem c4_counterexample :
    (filterDegree exOtherOnly "Other").rows ≠ [] ∧
    detailed_tables exOtherOnly = .ok [] := by
  constructor
  · with_unfolding_all decide
  · with_unfolding_all rfl

/-- Claim C4 witness: on the example slice (one Consultant, one Resident,
no Specialist) exactly the non-empty categories appear, in order. -/
theorem c4_witness :
    exDetailed.map Prod.fst = ["Consultant", "Resident"] ∧
    (∀ p ∈ exDetailed, rosterTable (filterDegree exSlice p.1) = .ok p.2) := by
  have h := c4_claim exSlice exDetailed (by with_unfolding_all rfl)
  refine ⟨h.1.trans (by with_unfolding_all rfl), h.2.1⟩

/-! ## C9: normalizer idempotence -/

theorem collapse_spaced (l : List Char) : ∀ b, SpacedWs (collapseWs b l) := by
  induction l with
  | nil =>
    intro b c hc _
    simp [collapseWs] at hc
  | cons c cs ih =>
    intro b d hd hws
    by_cases hcw : isWs c = true
    · cases b with
      | true =>
        rw [show collapseWs true (c :: cs) = collapseWs true cs by
          simp [collapseWs, hcw]] at hd
        exact ih true d hd hws
      | false =>
        rw [show collapseWs false (c :: cs) = ' ' :: collapseWs true cs by
          simp [collapseWs, hcw]] at hd
        cases hd with
        | head => rfl
        | tail _ h' => exact ih true d h' hws
    · have hf : isWs c = false := by revert hcw; cases isWs c <;> simp
      rw [show collapseWs b (c :: cs) = c :: collapseWs false cs by
        simp [collapseWs, hf]] at hd
      cases hd with
      | head => exact absurd hws (by simp [hf])
      | tail _ h' => exact ih false d h' hws

theorem collapse_nodouble (l : List Char) :
    NoDoubleWs (collapseWs false l) ∧ NoDoubleWs (collapseWs true l) ∧
    headNotWs (collapseWs true l) := by
  induction l with
  | nil => exact ⟨List.chain'_nil, List.chain'_nil, trivial⟩
  | cons c cs ih =>
    obtain ⟨ih1, ih2, ih3⟩ := ih
    by_cases hcw : isWs c = true
    · have e1 : collapseWs false (c :: cs) = ' ' :: collapseWs true cs := by
        simp [collapseWs, hcw]
      have e2 : collapseWs true (c :: cs) = collapseWs true cs := by
        simp [collapseWs, hcw]
      refine ⟨?_, by rw [e2]; exact ih2, by rw [e2]; exact ih3⟩
      rw [e1]
      apply List.chain'_cons'.mpr
      refine ⟨?_, ih2⟩
      intro y hy hcon
      cases hsh : collapseWs true cs with
      | nil => rw [hsh] at hy; simp at hy
      | cons z zs =>
        rw [hsh] at hy
        have hyz : z = y := by simpa using hy
        rw [hsh] at ih3
        exact absurd hcon.2 (by simp [← hyz, show isWs z = false from ih3])
    · have hf : isWs c = false := by revert hcw; cases isWs c <;> simp
      have e : ∀ b, collapseWs b (c :: cs) = c :: collapseWs false cs := by
        intro b
        simp [collapseWs, hf]
      have hchain : NoDoubleWs (c :: collapseWs false cs) := by
        apply List.chain'_cons'.mpr
        refine ⟨?_, ih1⟩
        intro y _ hcon
        exact absurd hcon.1 (by simp [hf])
      exact ⟨by rw [e false]; exact hchain, by rw [e true]; exact hchain,
        by rw [e true]; exact hf⟩

theorem collapse_fix (l : List Char) (hs : SpacedWs l) (hn : NoDoubleWs l) :
    collapseWs false l = l ∧ (headNotWs l → collapseWs true l = l) := by
  induction l with
  | nil => exact ⟨rfl, fun _ => rfl⟩
  | cons c cs ih =>
    have hs' : SpacedWs cs := fun d hd h => hs d (List.mem_cons_of_mem _ hd) h
    have hn' : NoDoubleWs cs := (List.chain'_cons'.mp hn).2
    have hR := (List.chain'_cons'.mp hn).1
    obtain ⟨ihf, iht⟩ := ih hs' hn'
    by_cases hcw : isWs c = true
    · have hcsp : c = ' ' := hs c (List.mem_cons_self c cs) hcw
      have hhead : headNotWs cs := by
        cases cs with
        | nil => trivial
        | cons z zs =>
          have hz := hR z (by simp)
          show isWs z = false
          cases hzw : isWs z with
          | false => rfl
          | true => exact absurd ⟨hcw, hzw⟩ hz
      constructor
      · rw [show collapseWs false (c :: cs) = ' ' :: collapseWs true cs by
          simp [collapseWs, hcw]]
        rw [iht hhead, hcsp]
      · intro hh
        exact absurd hcw (by simp [show isWs c = false from hh])
    · have hf : isWs c = false := by revert hcw; cases isWs c <;> simp
      have e : ∀ b, collapseWs b (c :: cs) = c :: collapseWs false cs := by
        intro b
        simp [collapseWs, hf]
      exact ⟨by rw [e false, ihf], fun _ => by rw [e true, ihf]⟩

theorem dropWhile_dropWhile (p : Char → Bool) (l : List Char) :
    (l.dropWhile p).dropWhile p = l.dropWhile p := by
  induction l with
  | nil => rfl
  | cons c cs ih =>
    by_cases h : p c = true
    · simp [List.dropWhile_cons, h, ih]
    · simp [List.dropWhile_cons, h]

theorem dropTrail_head (c : Char) (t : List Char) :
    dropTrail (c :: t) = [] ∨ ∃ t', dropTrail (c :: t) = c :: t' := by
  unfold dropTrail
  rcases List.eq_nil_or_concat ((c :: t).reverse.dropWhile isWs) with h | ⟨L, b, h⟩
  · left
    rw [h]
    rfl
  · right
    have hsuf : (c :: t).reverse.dropWhile isWs <:+ (c :: t).reverse :=
      List.dropWhile_suffix _
    rw [h] at hsuf
    obtain ⟨pre, hpre⟩ := hsuf
    have hb : b = c := by
      have hlast := congrArg List.getLast? hpre
      rw [List.reverse_cons] at hlast
      rw [List.concat_eq_append, ← List.append_assoc] at hlast
      simpa [List.getLast?_concat] using hlast
    subst hb
    refine ⟨L.reverse, ?_⟩
    rw [h, List.concat_eq_append, List.reverse_append]
    rfl

theorem dropWhile_fix_dropTrail {x : List Char} (h : x.dropWhile isWs = x) :
    (dropTrail x).dropWhile isWs = dropTrail x := by
  cases x with
  | nil => rfl
  | cons c t =>
    have hc : isWs c = false := by
      cases hcc : isWs c with
      | false => rfl
      | true =>
        rw [List.dropWhile_cons, if_pos hcc] at h
        have hl : (t.dropWhile isWs).length ≤ t.length :=
          (List.dropWhile_suffix _).length_le
        rw [h] at hl
        simp at hl
    rcases dropTrail_head c t with h0 | ⟨t', h0⟩
    · rw [h0]
      rfl
    · rw [h0, List.dropWhile_cons, if_neg (by simp [hc])]

theorem dropTrail_dropTrail (x : List Char) : dropTrail (dropTrail x) = dropTrail x := by
  unfold dropTrail
  rw [List.reverse_reverse, dropWhile_dropWhile]

theorem stripWs_idem (l : List Char) : stripWs (stripWs l) = stripWs l := by
  unfold stripWs
  rw [dropWhile_fix_dropTrail (dropWhile_dropWhile isWs l), dropTrail_dropTrail]

theorem spaced_strip {l : List Char} (h : SpacedWs l) : SpacedWs (stripWs l) := by
  intro c hc hw
  refine h c ?_ hw
  unfold stripWs dropTrail at hc
  rw [List.mem_reverse] at hc
  have h2 := (List.dropWhile_suffix isWs).subset hc
  rw [List.mem_reverse] at h2
  exact (List.dropWhile_suffix isWs).subset h2

theorem nodouble_strip {l : List Char} (h : NoDoubleWs l) : NoDoubleWs (stripWs l) := by
  have h1 : NoDoubleWs (l.dropWhile isWs) := h.suffix (List.dropWhile_suffix _)
  have h2 : NoDoubleWs (l.dropWhile isWs).reverse :=
    List.chain'_reverse.mpr (h1.imp (fun _ _ hab hba => hab ⟨hba.2, hba.1⟩))
  have h3 : NoDoubleWs ((l.dropWhile isWs).reverse.dropWhile isWs) :=
    h2.suffix (List.dropWhile_suffix _)
  have h4 : NoDoubleWs ((l.dropWhile isWs).reverse.dropWhile isWs).reverse :=
    List.chain'_reverse.mpr (h3.imp (fun _ _ hab hba => hab ⟨hba.2, hba.1⟩))
  exact h4

/-- Claim C9: header normalization (whitespace-run collapse then trim) is
idempotent, on a single header and on a whole frame's columns. -/
theorem c9_claim :
    (∀ s : String, normalizeHeader (normalizeHeader s) = normalizeHeader s) ∧
    (∀ df : DataFrame, clean_columns (clean_columns df) = clean_columns df) := by
  have key : ∀ s : String, normalizeHeader (normalizeHeader s) = normalizeHeader s := by
    intro s
    unfold normalizeHeader
    congr 1
    have hs1 : SpacedWs (collapseWs false s.data) := collapse_spaced s.data false
    have hn1 : NoDoubleWs (collapseWs false s.data) := (collapse_nodouble s.data).1
    have hs2 : SpacedWs (stripWs (collapseWs false s.data)) := spaced_strip hs1
    have hn2 : NoDoubleWs (stripWs (collapseWs false s.data)) := nodouble_strip hn1
    calc stripWs (collapseWs false (stripWs (collapseWs false s.data)))
        = stripWs (stripWs (collapseWs false s.data)) := by
          rw [(collapse_fix _ hs2 hn2).1]
      _ = stripWs (collapseWs false s.data) := stripWs_idem _
  refine ⟨key, ?_⟩
  intro df
  unfold clean_columns
  congr 1
  rw [List.map_map]
  exact List.map_congr_left (fun a _ => key a)

end App
